import Mathlib

/-!
Verification of the client-side appointment-booking and status-lifecycle
view model of the Lesotho passport portal. The definitions below are a
shallow embedding of the JavaScript view-model code: appointment
eligibility derivation (ApplicationDetail), applicant appointment list
actions (MyAppointments), the reschedule flow, the officer daily
schedule, the HTTP-client error interceptor, status label formatting,
and the status timeline.
-/

namespace Passport

/-- An appointment as the view model sees it: owning application,
type (submission or collection), lifecycle status, and the server
controlled reschedule permission flag. -/
structure Appointment where
  id : String
  type : String
  status : String
  can_be_rescheduled : Bool
  deriving Repr, DecidableEq

/-- An application as the view model sees it: just its identifier and
lifecycle status matter to the eligibility derivation. -/
structure Application where
  id : String
  status : String
  deriving Repr, DecidableEq

/-- A time slot offered by the availability query. -/
structure TimeSlot where
  id : String
  start_time : String
  available_capacity : Nat
  deriving Repr, DecidableEq

/-! ## Appointment eligibility view (ApplicationDetail)

Embeds the helpers of the application detail page:
getSubmissionAppointment, getCollectionAppointment, canBookSubmission,
canBookCollection, and the appointment section rendering. -/

/-- `appointments.find(apt => apt.type === 'submission')`. -/
def getSubmissionAppointment (appointments : List Appointment) : Option Appointment :=
  appointments.find? (fun apt => apt.type == "submission")

/-- `appointments.find(apt => apt.type === 'collection')`. -/
def getCollectionAppointment (appointments : List Appointment) : Option Appointment :=
  appointments.find? (fun apt => apt.type == "collection")

/-- `application?.status === 'submitted' && !getSubmissionAppointment()`. -/
def canBookSubmission (application : Application) (appointments : List Appointment) : Bool :=
  application.status == "submitted" && (getSubmissionAppointment appointments).isNone

/-- `application?.status === 'ready_for_pickup' && !getCollectionAppointment()`. -/
def canBookCollection (application : Application) (appointments : List Appointment) : Bool :=
  application.status == "ready_for_pickup" && (getCollectionAppointment appointments).isNone

/-- The three mutually exclusive renderings of each appointment section of
the application detail page: the booked-appointment card, the booking
call-to-action, or the informational fallback text. -/
inductive AppointmentPanel where
  | booked (apt : Appointment)
  | bookAction
  | info
  deriving Repr, DecidableEq

/-- The submission appointment section:
`getSubmissionAppointment() ? card : canBookSubmission() ? bookLink : fallback`. -/
def submissionPanel (application : Application) (appointments : List Appointment) :
    AppointmentPanel :=
  match getSubmissionAppointment appointments with
  | some apt => .booked apt
  | none =>
      if canBookSubmission application appointments then .bookAction else .info

/-- The collection appointment section:
`getCollectionAppointment() ? card : canBookCollection() ? bookLink : fallback`. -/
def collectionPanel (application : Application) (appointments : List Appointment) :
    AppointmentPanel :=
  match getCollectionAppointment appointments with
  | some apt => .booked apt
  | none =>
      if canBookCollection application appointments then .bookAction else .info

/-- Auxiliary: `List.find?` returns the head of the filtered list. -/
theorem find?_eq_head?_filter {α : Type} (p : α → Bool) (l : List α) :
    l.find? p = (l.filter p).head? := by
  induction l with
  | nil => rfl
  | cons a as ih =>
      rw [List.filter_cons]
      by_cases h : p a
      · rw [List.find?_cons_of_pos _ h, if_pos h, List.head?_cons]
      · simp only [Bool.not_eq_true] at h
        rw [List.find?_cons_of_neg _ (by simp [h]), if_neg (by simp [h]), ih]

/-- Claim C1: for every application and appointment list,
canBookSubmission is true iff the application status is "submitted" and
the list has no appointment of type "submission"; canBookCollection is
true iff the status is "ready_for_pickup" and the list has no
appointment of type "collection". -/
theorem canBook_iff (application : Application) (appointments : List Appointment) :
    (canBookSubmission application appointments = true ↔
      application.status = "submitted" ∧
        ∀ apt ∈ appointments, apt.type ≠ "submission") ∧
    (canBookCollection application appointments = true ↔
      application.status = "ready_for_pickup" ∧
        ∀ apt ∈ appointments, apt.type ≠ "collection") := by
  constructor <;>
    simp [canBookSubmission, canBookCollection, getSubmissionAppointment,
      getCollectionAppointment, Option.isNone_iff_eq_none, List.find?_eq_none]

/-- Claim C9: deriving the submission and collection appointments is a
total function of the list that deterministically returns the first
appointment of the requested type in list order (the head of the
filtered list), or none when no such appointment exists; duplicate
non-cancelled appointments of the same type are tolerated. -/
theorem appointment_selection_first_by_list_order (appointments : List Appointment) :
    getSubmissionAppointment appointments =
      (appointments.filter (fun apt => apt.type == "submission")).head? ∧
    getCollectionAppointment appointments =
      (appointments.filter (fun apt => apt.type == "collection")).head? := by
  exact ⟨find?_eq_head?_filter _ appointments, find?_eq_head?_filter _ appointments⟩

/-- Claim C4: whenever the application detail page renders the booking
call-to-action, the application status is right for that appointment
type and the list contains no non-cancelled appointment of that type
(the code guarantees the stronger fact that no appointment of that type
exists at all, cancelled or not). -/
theorem book_action_only_when_eligible (application : Application)
    (appointments : List Appointment) :
    (submissionPanel application appointments = .bookAction →
      application.status = "submitted" ∧
        ∀ apt ∈ appointments, ¬(apt.type = "submission" ∧ apt.status ≠ "cancelled")) ∧
    (collectionPanel application appointments = .bookAction →
      application.status = "ready_for_pickup" ∧
        ∀ apt ∈ appointments, ¬(apt.type = "collection" ∧ apt.status ≠ "cancelled")) := by
  constructor
  · intro h
    unfold submissionPanel at h
    rcases hfind : getSubmissionAppointment appointments with _ | apt
    · rw [hfind] at h
      by_cases hc : canBookSubmission application appointments = true
      · rcases (canBook_iff application appointments).1.mp hc with ⟨hs, hnone⟩
        exact ⟨hs, fun apt hmem hand => hnone apt hmem hand.1⟩
      · simp [hc] at h
    · rw [hfind] at h
      simp at h
  · intro h
    unfold collectionPanel at h
    rcases hfind : getCollectionAppointment appointments with _ | apt
    · rw [hfind] at h
      by_cases hc : canBookCollection application appointments = true
      · rcases (canBook_iff application appointments).2.mp hc with ⟨hs, hnone⟩
        exact ⟨hs, fun apt hmem hand => hnone apt hmem hand.1⟩
      · simp [hc] at h
    · rw [hfind] at h
      simp at h

/-- A freshly submitted application with no appointments yet. -/
def submittedApp : Application := { id := "app-1", status := "submitted" }

/-- Witness for C4: on a submitted application with an empty appointment
list, the submission section renders the booking call-to-action, and the
theorem yields the eligibility facts there. -/
theorem book_action_only_when_eligible_witness :
    submittedApp.status = "submitted" ∧
      ∀ apt ∈ ([] : List Appointment), ¬(apt.type = "submission" ∧ apt.status ≠ "cancelled") :=
  (book_action_only_when_eligible submittedApp []).1 rfl

/-! ## Applicant appointment list and application detail actions

Embeds the per-appointment action rendering of MyAppointments and of the
booked-appointment card of the application detail page. -/

/-- A user-visible action widget attached to an appointment. -/
inductive UserAction where
  | cancelAction (aptId : String)
  | rescheduleAction (aptId : String)
  deriving Repr, DecidableEq

/-- MyAppointments row actions:
`appointment.status === 'scheduled' && appointment.can_be_rescheduled`
guards the single Cancel Appointment button; no reschedule action exists
on this page. -/
def myAppointmentsRowActions (apt : Appointment) : List UserAction :=
  if apt.status == "scheduled" && apt.can_be_rescheduled then
    [.cancelAction apt.id]
  else []

/-- Application detail booked-appointment card actions:
`getSubmissionAppointment().can_be_rescheduled && (rescheduleLink, cancelButton)`;
the same guard wraps both the Reschedule link and the Cancel button. -/
def bookedCardActions (apt : Appointment) : List UserAction :=
  if apt.can_be_rescheduled then
    [.rescheduleAction apt.id, .cancelAction apt.id]
  else []

/-- A scheduled appointment whose reschedule permission is off. -/
def blockedApt : Appointment :=
  { id := "apt-1", type := "submission", status := "scheduled", can_be_rescheduled := false }

/-- Counterexample to C2: for a scheduled appointment with
can_be_rescheduled false, the cancel action is NOT rendered in the
applicant appointment list — the cancel button is gated on the
reschedule flag, so the two permissions are not independent. -/
theorem cancel_hidden_when_reschedule_blocked :
    blockedApt.status = "scheduled" ∧ blockedApt.can_be_rescheduled = false ∧
      UserAction.cancelAction blockedApt.id ∉ myAppointmentsRowActions blockedApt := by
  refine ⟨rfl, rfl, ?_⟩
  simp [myAppointmentsRowActions, blockedApt]

/-- Claim C2 as amended: when can_be_rescheduled is false, neither the
cancel nor the reschedule action is offered — the appointment list
renders its cancel button only when the status is scheduled AND
can_be_rescheduled is true, and the application detail card gates both
the reschedule link and the cancel button on can_be_rescheduled. -/
theorem actions_hidden_when_reschedule_blocked (apt : Appointment)
    (h : apt.can_be_rescheduled = false) :
    myAppointmentsRowActions apt = [] ∧ bookedCardActions apt = [] := by
  constructor
  · simp [myAppointmentsRowActions, h]
  · simp [bookedCardActions, h]

/-- Witness for the amended C2: on the concrete blocked appointment both
action lists are empty. -/
theorem actions_hidden_when_reschedule_blocked_witness :
    myAppointmentsRowActions blockedApt = [] ∧ bookedCardActions blockedApt = [] :=
  actions_hidden_when_reschedule_blocked blockedApt rfl

/-! ## Reschedule flow (RescheduleAppointment page)

The page loads the appointment and application, lets the user pick a
slot, and handleReschedule issues the PUT reschedule request whenever a
slot is selected; the page never consults can_be_rescheduled. -/

/-- The mutable state of the reschedule page that handleReschedule
reads: the fetched appointment, the selected slot, and the reason. -/
structure ReschedulePageState where
  appointment : Appointment
  selectedSlot : Option TimeSlot
  reason : String
  deriving Repr, DecidableEq

/-- The network request issued by rescheduleAppointment. -/
structure RescheduleRequest where
  appointmentId : String
  newTimeSlotId : String
  reason : String
  deriving Repr, DecidableEq

/-- handleReschedule: `if (!selectedSlot) toast error; else await
rescheduleAppointment(id, selectedSlot.id, reason)` — the request is
produced from the route id and the selected slot alone. -/
def handleReschedule (appointmentId : String) (st : ReschedulePageState) :
    Option RescheduleRequest :=
  match st.selectedSlot with
  | none => none
  | some slot => some { appointmentId := appointmentId,
                        newTimeSlotId := slot.id,
                        reason := st.reason }

/-- A concrete available slot. -/
def slot9am : TimeSlot := { id := "slot-9", start_time := "09:00", available_capacity := 3 }

/-- Claim C3 evaluated at the failing input: the reschedule flow issues
the reschedule request for an appointment whose can_be_rescheduled flag
is false, because handleReschedule only checks that a slot is selected —
the flag gates nothing inside the flow, contrary to the hard-block
contract. -/
theorem reschedule_issued_despite_block :
    blockedApt.can_be_rescheduled = false ∧
      handleReschedule blockedApt.id
          { appointment := blockedApt, selectedSlot := some slot9am, reason := "" } =
        some { appointmentId := blockedApt.id, newTimeSlotId := slot9am.id, reason := "" } :=
  ⟨rfl, rfl⟩

/-! ## Officer daily schedule (DailySchedule)

Embeds the per-row action-button rendering of the officer schedule. -/

/-- What the action column of a schedule row renders. -/
inductive ScheduleAction where
  | checkInButton
  | completeButton
  | completedLabel
  | nothing
  deriving Repr, DecidableEq

/-- The action-button chain of the daily schedule:
scheduled/confirmed/rescheduled render Check In; checked_in renders
Complete; completed renders a static label; anything else (cancelled,
no_show) renders nothing. -/
def scheduleRowAction (apt : Appointment) : ScheduleAction :=
  if apt.status == "scheduled" || apt.status == "confirmed"
      || apt.status == "rescheduled" then
    .checkInButton
  else if apt.status == "checked_in" then
    .completeButton
  else if apt.status == "completed" then
    .completedLabel
  else
    .nothing

/-- Claim C5: Check In is rendered exactly on scheduled, confirmed and
rescheduled; Complete exactly on checked_in; cancelled and no_show
render no action button — the schedule never offers a transition that
skips a state or acts on an absorbing state. -/
theorem schedule_actions_strictly_forward (apt : Appointment) :
    (scheduleRowAction apt = .checkInButton ↔
      apt.status = "scheduled" ∨ apt.status = "confirmed" ∨ apt.status = "rescheduled") ∧
    (scheduleRowAction apt = .completeButton ↔ apt.status = "checked_in") ∧
    (apt.status = "cancelled" ∨ apt.status = "no_show" →
      scheduleRowAction apt = .nothing) := by
  by_cases h1 : apt.status = "scheduled" <;>
    by_cases h2 : apt.status = "confirmed" <;>
      by_cases h3 : apt.status = "rescheduled" <;>
        by_cases h4 : apt.status = "checked_in" <;>
          by_cases h5 : apt.status = "completed" <;>
            simp_all [scheduleRowAction]

/-- Witness for C5: a cancelled appointment renders no action button. -/
theorem schedule_actions_strictly_forward_witness :
    scheduleRowAction
        { id := "apt-2", type := "collection", status := "cancelled",
          can_be_rescheduled := false } = .nothing :=
  (schedule_actions_strictly_forward _).2.2 (Or.inl rfl)

/-! ## Local storage and the HTTP-client error interceptor

Embeds storage.js (getItem/removeItem/clearAuthData over browser local
storage) and the axios response interceptor error branch. -/

/-- STORAGE_KEYS.AUTH_TOKEN. -/
def AUTH_TOKEN_KEY : String := "passport_auth_token"

/-- STORAGE_KEYS.USER_DATA. -/
def USER_DATA_KEY : String := "passport_user_data"

/-- Browser local storage as a key-value association list. -/
abbrev LocalStorage := List (String × String)

/-- localStorage.getItem. -/
def getItem (st : LocalStorage) (key : String) : Option String :=
  (st.find? (fun kv => kv.fst == key)).map (fun kv => kv.snd)

/-- localStorage.removeItem. -/
def removeItem (st : LocalStorage) (key : String) : LocalStorage :=
  st.filter (fun kv => kv.fst != key)

/-- removeAuthToken from storage.js. -/
def removeAuthToken (st : LocalStorage) : LocalStorage :=
  removeItem st AUTH_TOKEN_KEY

/-- removeUserData from storage.js. -/
def removeUserData (st : LocalStorage) : LocalStorage :=
  removeItem st USER_DATA_KEY

/-- clearAuthData: removeAuthToken, then removeUserData. -/
def clearAuthData (st : LocalStorage) : LocalStorage :=
  removeUserData (removeAuthToken st)

/-- The msg field of one element of a 422 detail array; the field may be
absent, modelled as none. -/
structure DetailElem where
  msg : Option String
  deriving Repr, DecidableEq

/-- The detail field of an error response body: absent, a string, an
array of message objects, or some other truthy JSON value. -/
inductive Detail where
  | absent
  | str (s : String)
  | arr (elems : List DetailElem)
  | other
  deriving Repr, DecidableEq

/-- The body of an error response as the interceptor inspects it. -/
structure ResponseData where
  detail : Detail
  deriving Repr, DecidableEq

/-- An HTTP error response: status code and body. -/
structure HttpResponse where
  status : Nat
  data : ResponseData
  deriving Repr, DecidableEq

/-- An axios error: response is none when nothing reached the client
(network error). -/
structure AxiosError where
  response : Option HttpResponse
  deriving Repr, DecidableEq

-- ERROR_MESSAGES from constants.js.
def NETWORK_ERROR_MSG : String := "Network error. Please check your connection."
def UNAUTHORIZED_MSG : String := "Session expired. Please login again."
def FORBIDDEN_MSG : String := "You do not have permission to perform this action."
def NOT_FOUND_MSG : String := "The requested resource was not found."
def SERVER_ERROR_MSG : String := "Server error. Please try again later."
def VALIDATION_ERROR_MSG : String := "Please check your input and try again."

/-- A JavaScript message value: the default branch computes
`data.detail || "An error occurred"`, which is the raw detail value
itself when detail is truthy but not a string. -/
inductive MsgVal where
  | str (s : String)
  | rawDetail (d : Detail)
  deriving Repr, DecidableEq

/-- The default-branch message `data.detail || "An error occurred"`:
falsy detail (absent or empty string) falls back to the generic text,
any other detail value is passed through. -/
def defaultMessage (d : Detail) : MsgVal :=
  match d with
  | .absent => .str "An error occurred"
  | .str s => if s == "" then .str "An error occurred" else .str s
  | d => .rawDetail d

/-- The 422 message extraction. `data.detail && Array.isArray(data.detail)`
is true for every array, including the empty one, and the subsequent
`detail[0].msg` access throws a TypeError on the empty array (modelled
as `.error ()`); a truthy msg on the first element is used, a string
detail is used verbatim, everything else keeps the generic message. -/
def extract422Message (d : Detail) : Except Unit String :=
  match d with
  | .arr [] => .error ()
  | .arr (e :: _) =>
      .ok (match e.msg with
           | some s => if s == "" then VALIDATION_ERROR_MSG else s
           | none => VALIDATION_ERROR_MSG)
  | .str s => .ok s
  | .absent => .ok VALIDATION_ERROR_MSG
  | .other => .ok VALIDATION_ERROR_MSG

/-- The normalized rejection object `{message, status, data, errors}`;
data is none on the network branch, errors is only set on 422. -/
structure NormalizedError where
  message : MsgVal
  status : Nat
  data : Option ResponseData
  errors : Option Detail
  deriving Repr, DecidableEq

/-- What an await of a failed apiClient call observes. -/
inductive Rejection where
  | normalized (e : NormalizedError)
  | thrown
  deriving Repr, DecidableEq

/-- Client-visible browser state the interceptor mutates: local storage
and the navigation target assigned to window.location.href. -/
structure ClientState where
  storage : LocalStorage
  location : Option String
  deriving Repr, DecidableEq

/-- The apiClient response interceptor error handler. -/
def interceptorOnError (st : ClientState) (err : AxiosError) :
    ClientState × Rejection :=
  match err.response with
  | none =>
      (st, .normalized { message := .str NETWORK_ERROR_MSG, status := 0,
                         data := none, errors := none })
  | some resp =>
      if resp.status = 401 then
        ({ storage := clearAuthData st.storage, location := some "/login" },
         .normalized { message := .str UNAUTHORIZED_MSG, status := resp.status,
                       data := some resp.data, errors := none })
      else if resp.status = 403 then
        (st, .normalized { message := .str FORBIDDEN_MSG, status := resp.status,
                           data := some resp.data, errors := none })
      else if resp.status = 404 then
        (st, .normalized { message := .str NOT_FOUND_MSG, status := resp.status,
                           data := some resp.data, errors := none })
      else if resp.status = 422 then
        match extract422Message resp.data.detail with
        | .error _ => (st, .thrown)
        | .ok m =>
            (st, .normalized { message := .str m, status := resp.status,
                               data := some resp.data,
                               errors := some resp.data.detail })
      else if resp.status = 500 ∨ resp.status = 502 ∨ resp.status = 503 then
        (st, .normalized { message := .str SERVER_ERROR_MSG, status := resp.status,
                           data := some resp.data, errors := none })
      else
        (st, .normalized { message := defaultMessage resp.data.detail,
                           status := resp.status,
                           data := some resp.data, errors := none })

/-- Auxiliary: find? over a filter whose removed elements cannot match. -/
theorem find?_filter_of_imp {α : Type} (p q : α → Bool) (l : List α)
    (h : ∀ x, p x = true → q x = true) :
    (l.filter q).find? p = l.find? p := by
  induction l with
  | nil => rfl
  | cons a as ih =>
      rw [List.filter_cons]
      by_cases hq : q a = true
      · rw [if_pos hq]
        by_cases hp : p a = true
        · rw [List.find?_cons_of_pos _ hp, List.find?_cons_of_pos _ hp]
        · simp only [Bool.not_eq_true] at hp
          rw [List.find?_cons_of_neg _ (by simp [hp]),
            List.find?_cons_of_neg _ (by simp [hp]), ih]
      · have hp : p a = false := by
          rcases hpa : p a with _ | _
          · rfl
          · exact absurd (h a hpa) hq
        rw [if_neg hq, List.find?_cons_of_neg _ (by simp [hp]), ih]

/-- Auxiliary: after removing a key, getItem on that key yields none. -/
theorem getItem_removeItem_self (st : LocalStorage) (key : String) :
    getItem (removeItem st key) key = none := by
  unfold getItem removeItem
  have h : (st.filter fun kv => kv.fst != key).find? (fun kv => kv.fst == key)
      = none := by
    rw [List.find?_eq_none]
    intro kv hmem
    rcases List.mem_filter.mp hmem with ⟨_, hkeep⟩
    simp only [bne_iff_ne, ne_eq] at hkeep
    simp [hkeep]
  rw [h]
  rfl

/-- Auxiliary: removing a different key leaves a lookup unchanged. -/
theorem getItem_removeItem_other (st : LocalStorage) (k k' : String)
    (h : k ≠ k') :
    getItem (removeItem st k') k = getItem st k := by
  unfold getItem removeItem
  rw [find?_filter_of_imp]
  intro kv hkv
  simp only [beq_iff_eq] at hkv
  simp [bne_iff_ne, hkv, h]

/-- Claim C6: a 401 response on any call makes the interceptor clear the
stored auth token and cached user data and navigate the browser to
/login, whatever client state the call started from. -/
theorem unauthorized_clears_session_and_redirects (st : ClientState)
    (err : AxiosError) (resp : HttpResponse)
    (hr : err.response = some resp) (hs : resp.status = 401) :
    getItem (interceptorOnError st err).1.storage AUTH_TOKEN_KEY = none ∧
    getItem (interceptorOnError st err).1.storage USER_DATA_KEY = none ∧
    (interceptorOnError st err).1.location = some "/login" := by
  simp only [interceptorOnError, hr]
  rw [if_pos hs]
  dsimp only
  refine ⟨?_, ?_, rfl⟩
  · unfold clearAuthData removeUserData removeAuthToken
    rw [getItem_removeItem_other _ _ _ (by decide),
      getItem_removeItem_self]
  · unfold clearAuthData removeUserData
    rw [getItem_removeItem_self]

/-- A populated session before the failing call. -/
def loggedInState : ClientState :=
  { storage := [(AUTH_TOKEN_KEY, "tok-1"), (USER_DATA_KEY, "alice")],
    location := none }

/-- A 401 error as delivered by axios. -/
def err401 : AxiosError :=
  { response := some { status := 401, data := { detail := .absent } } }

/-- Witness for C6: from a logged-in state, the 401 branch leaves no
token, no user data, and the location set to /login. -/
theorem unauthorized_clears_session_and_redirects_witness :
    getItem (interceptorOnError loggedInState err401).1.storage AUTH_TOKEN_KEY = none ∧
    getItem (interceptorOnError loggedInState err401).1.storage USER_DATA_KEY = none ∧
    (interceptorOnError loggedInState err401).1.location = some "/login" :=
  unauthorized_clears_session_and_redirects loggedInState err401 _ rfl rfl

/-- A client with empty storage sitting on some page. -/
def freshClient : ClientState := { storage := [], location := none }

/-- A 422 response whose detail is the empty array. -/
def err422emptyDetail : AxiosError :=
  { response := some { status := 422, data := { detail := .arr [] } } }

/-- Counterexample to C7: a 422 response whose detail is an empty array
makes the interceptor throw (detail[0] is undefined and the .msg access
raises a TypeError), so the rejection is the raw exception, not the
normalized shape with message, status and data. -/
theorem validation_empty_detail_not_normalized :
    err422emptyDetail.response = some { status := 422, data := { detail := .arr [] } } ∧
    (interceptorOnError freshClient err422emptyDetail).2 = .thrown :=
  ⟨rfl, rfl⟩

/-- Modelled from the spec, amended: the first validation message shown
for a 422 — detail[0].msg when detail is an array whose first element
carries a non-empty msg, detail itself when it is a string, and the
generic validation text otherwise. -/
def specFirstValidationMessage (d : Detail) : String :=
  match d with
  | .str s => s
  | .arr (e :: _) =>
      match e.msg with
      | some s => if s == "" then VALIDATION_ERROR_MSG else s
      | none => VALIDATION_ERROR_MSG
  | _ => VALIDATION_ERROR_MSG

/-- Auxiliary: the 422 extraction either throws, exactly on the empty
array, or returns the first validation message. -/
theorem extract422_cases (d : Detail) :
    (extract422Message d = .error () ∧ d = .arr []) ∨
    extract422Message d = .ok (specFirstValidationMessage d) := by
  cases d with
  | absent => right; rfl
  | str s => right; rfl
  | other => right; rfl
  | arr elems =>
      cases elems with
      | nil => left; exact ⟨rfl, rfl⟩
      | cons e es => right; rfl

/-- Auxiliary: on every non-422 error response the interceptor rejects
with a normalized record carrying the response status and body. -/
theorem interceptor_shape_not422 (st : ClientState) (err : AxiosError)
    (resp : HttpResponse) (hr : err.response = some resp)
    (hne : resp.status ≠ 422) :
    ∃ m, (interceptorOnError st err).2 =
      .normalized { message := m, status := resp.status,
                    data := some resp.data, errors := none } := by
  simp only [interceptorOnError, hr]
  by_cases h1 : resp.status = 401
  · rw [if_pos h1]; exact ⟨_, rfl⟩
  · rw [if_neg h1]
    by_cases h2 : resp.status = 403
    · rw [if_pos h2]; exact ⟨_, rfl⟩
    · rw [if_neg h2]
      by_cases h3 : resp.status = 404
      · rw [if_pos h3]; exact ⟨_, rfl⟩
      · rw [if_neg h3, if_neg hne]
        by_cases h5 : resp.status = 500 ∨ resp.status = 502 ∨ resp.status = 503
        · rw [if_pos h5]; exact ⟨_, rfl⟩
        · rw [if_neg h5]; exact ⟨_, rfl⟩

/-- Auxiliary: on a 422 response the interceptor either throws, exactly
when the detail is the empty array, or rejects normalized with the first
validation message. -/
theorem interceptor_shape_422 (st : ClientState) (err : AxiosError)
    (resp : HttpResponse) (hr : err.response = some resp)
    (h : resp.status = 422) :
    (resp.data.detail = .arr [] ∧ (interceptorOnError st err).2 = .thrown) ∨
    (interceptorOnError st err).2 =
      .normalized { message := .str (specFirstValidationMessage resp.data.detail),
                    status := resp.status, data := some resp.data,
                    errors := some resp.data.detail } := by
  simp only [interceptorOnError, hr]
  rw [if_neg (by omega), if_neg (by omega), if_neg (by omega), if_pos h]
  rcases extract422_cases resp.data.detail with ⟨he, hd⟩ | he
  · rw [he]
    exact Or.inl ⟨hd, rfl⟩
  · rw [he]
    exact Or.inr rfl

/-- Claim C7 as amended: except for a 422 whose detail is an empty array
(where the interceptor itself throws and the rejection is the raw
exception), every failed call rejects with the normalized record; its
status is 0 exactly when no response reached the client (assuming real
HTTP statuses are nonzero), it carries the response body whenever there
is one and no body on the network branch, and on a 422 its message is
the first validation message of the response detail. -/
theorem error_normalization_amended (st : ClientState) (err : AxiosError)
    (hwf : ∀ resp, err.response = some resp → resp.status ≠ 0) :
    ((interceptorOnError st err).2 = .thrown →
        ∃ resp, err.response = some resp ∧ resp.status = 422 ∧
          resp.data.detail = .arr []) ∧
    (∀ e, (interceptorOnError st err).2 = .normalized e →
        (e.status = 0 ↔ err.response = none) ∧
        (∀ resp, err.response = some resp →
            e.status = resp.status ∧ e.data = some resp.data) ∧
        (err.response = none → e.data = none) ∧
        (∀ resp, err.response = some resp → resp.status = 422 →
            e.message = .str (specFirstValidationMessage resp.data.detail))) := by
  rcases herr : err.response with _ | resp
  · have h2 : (interceptorOnError st err).2 = .normalized
        { message := .str NETWORK_ERROR_MSG, status := 0,
          data := none, errors := none } := by
      simp only [interceptorOnError, herr]
    constructor
    · intro h
      rw [h2] at h
      cases h
    · intro e he
      rw [h2] at he
      injection he with h'
      subst h'
      refine ⟨by simp, ?_, fun _ => rfl, ?_⟩
      · intro r hr
        exact Option.noConfusion hr
      · intro r hr _
        exact Option.noConfusion hr
  · by_cases h422 : resp.status = 422
    · rcases interceptor_shape_422 st err resp herr h422 with ⟨hd, hthr⟩ | hn
      · constructor
        · intro _
          exact ⟨resp, rfl, h422, hd⟩
        · intro e he
          rw [hthr] at he
          cases he
      · constructor
        · intro h
          rw [hn] at h
          cases h
        · intro e he
          rw [hn] at he
          injection he with h'
          subst h'
          refine ⟨by simp [h422], ?_, ?_, ?_⟩
          · intro r hr
            injection hr with h'
            subst h'
            exact ⟨rfl, rfl⟩
          · intro hnone
            exact Option.noConfusion hnone
          · intro r hr _
            injection hr with h'
            subst h'
            rfl
    · obtain ⟨m, hn⟩ := interceptor_shape_not422 st err resp herr h422
      constructor
      · intro h
        rw [hn] at h
        cases h
      · intro e he
        rw [hn] at he
        injection he with h'
        subst h'
        refine ⟨by simp [hwf resp herr], ?_, ?_, ?_⟩
        · intro r hr
          injection hr with h'
          subst h'
          exact ⟨rfl, rfl⟩
        · intro hnone
          exact Option.noConfusion hnone
        · intro r hr hs
          injection hr with h'
          subst h'
          exact absurd hs h422

/-- A 422 whose detail carries one validation message. -/
def err422phone : AxiosError :=
  { response := some
      { status := 422,
        data := { detail := .arr [{ msg := some "invalid phone" }] } } }

/-- The rejection the interceptor produces for err422phone. -/
def rejection422phone : NormalizedError :=
  { message := .str "invalid phone", status := 422,
    data := some { detail := .arr [{ msg := some "invalid phone" }] },
    errors := some (.arr [{ msg := some "invalid phone" }]) }

/-- Witness for the amended C7: on a concrete 422 carrying one
validation message the rejection is normalized, its status is not 0, and
its message is the literal first server message. -/
theorem error_normalization_amended_witness :
    (rejection422phone.status = 0 ↔ err422phone.response = none) ∧
    rejection422phone.message =
      .str (specFirstValidationMessage (.arr [{ msg := some "invalid phone" }])) := by
  have h := (error_normalization_amended freshClient err422phone
      (by intro r hr; injection hr with h'; subst h'; decide)).2
      rejection422phone rfl
  exact ⟨h.1, h.2.2.2 _ rfl rfl⟩

/-! ## Status label formatting (MyApplications)

Embeds formatStatus and getStatusColor. JavaScript split is modelled
character by character, capitalization is applied to the first character
of each word as `word.charAt(0).toUpperCase() + word.slice(1)` does. -/

/-- JavaScript String.split on a single separator character. -/
def splitOnChar (sep : Char) : List Char → List (List Char)
  | [] => [[]]
  | c :: cs =>
      let rest := splitOnChar sep cs
      if c == sep then [] :: rest
      else
        match rest with
        | [] => [[c]]
        | w :: ws => (c :: w) :: ws

/-- `word.charAt(0).toUpperCase() + word.slice(1)`; the empty word stays
empty because charAt(0) of the empty string is the empty string. -/
def capitalizeWord (w : List Char) : String :=
  match w with
  | [] => ""
  | c :: cs => String.mk (c.toUpper :: cs)

/-- JavaScript Array.join(' '). -/
def joinSpace : List String → String
  | [] => ""
  | [w] => w
  | w :: ws => w ++ " " ++ joinSpace ws

/-- formatStatus from MyApplications:
`status.split('_').map(capitalize first).join(' ')`. -/
def formatStatus (status : String) : String :=
  joinSpace ((splitOnChar '_' status.data).map capitalizeWord)

/-- The colors object of getStatusColor, in source order. -/
def statusColors : List (String × String) :=
  [("submitted", "bg-blue-100 text-blue-800"),
   ("under_review", "bg-yellow-100 text-yellow-800"),
   ("documents_required", "bg-orange-100 text-orange-800"),
   ("processing", "bg-purple-100 text-purple-800"),
   ("quality_check", "bg-indigo-100 text-indigo-800"),
   ("ready_for_pickup", "bg-green-100 text-green-800"),
   ("collected", "bg-gray-100 text-gray-800"),
   ("expired", "bg-red-100 text-red-800"),
   ("rejected", "bg-red-100 text-red-800")]

/-- getStatusColor: `colors[status] || 'bg-gray-100 text-gray-800'`. -/
def getStatusColor (status : String) : String :=
  match statusColors.find? (fun kv => kv.fst == status) with
  | some kv => kv.snd
  | none => "bg-gray-100 text-gray-800"

/-- The application status enum of the data model. -/
def statusEnum : List String :=
  ["submitted", "under_review", "documents_required", "processing",
   "quality_check", "ready_for_pickup", "collected", "expired", "rejected"]

/-- Whether the first list is an initial segment of the second. -/
def listStarts : List Char → List Char → Bool
  | [], _ => true
  | _ :: _, [] => false
  | a :: as, b :: bs => a == b && listStarts as bs

/-- Whether pat occurs as a contiguous substring of s. -/
def strContains (s pat : String) : Bool :=
  (List.range (s.length + 1)).any (fun i => listStarts pat.data (s.data.drop i))

/-- Every space-separated word is non-empty and starts uppercase. -/
def isTitleCase (s : String) : Bool :=
  (splitOnChar (' ') s.data).all
    (fun w =>
      match w with
      | [] => false
      | c :: _ => c.isUpper)

/-- Claim C8: on every status enum value, formatStatus yields a
non-empty Title Case label, is idempotent on its own output, never puts
the text undefined into the label, and getStatusColor answers from the
defined color table (the lookup succeeds and the result is one of its
color categories). -/
theorem status_formatting_total_and_idempotent :
    ∀ s ∈ statusEnum,
      formatStatus s ≠ "" ∧
      formatStatus (formatStatus s) = formatStatus s ∧
      isTitleCase (formatStatus s) = true ∧
      strContains (formatStatus s) "undefined" = false ∧
      (statusColors.find? (fun kv => kv.fst == s)).isSome = true ∧
      getStatusColor s ∈ statusColors.map Prod.snd := by
  decide

/-- Witness for C8: the facts at the concrete status ready_for_pickup. -/
theorem status_formatting_total_and_idempotent_witness :
    formatStatus "ready_for_pickup" ≠ "" ∧
    formatStatus (formatStatus "ready_for_pickup") = formatStatus "ready_for_pickup" ∧
    isTitleCase (formatStatus "ready_for_pickup") = true ∧
    strContains (formatStatus "ready_for_pickup") "undefined" = false ∧
    (statusColors.find? (fun kv => kv.fst == "ready_for_pickup")).isSome = true ∧
    getStatusColor "ready_for_pickup" ∈ statusColors.map Prod.snd :=
  status_formatting_total_and_idempotent "ready_for_pickup" (by decide)

/-! ## Status timeline (StatusTimeline component) -/

/-- The six timeline step keys, in component order. -/
def TIMELINE_KEYS : List String :=
  ["submitted", "under_review", "processing", "quality_check",
   "ready_for_pickup", "collected"]

/-- JavaScript Array.findIndex: first matching index, or -1. -/
def jsFindIndex (p : String → Bool) : List String → Int
  | [] => -1
  | k :: ks =>
      if p k then 0
      else
        let r := jsFindIndex p ks
        if r = -1 then -1 else r + 1

/-- `STATUSES.findIndex(s => s.key === status)`. -/
def currentIndex (status : String) : Int :=
  jsFindIndex (fun k => k == status) TIMELINE_KEYS

/-- `index <= currentIndex`. -/
def isCompleted (status : String) (index : Nat) : Bool :=
  decide ((index : Int) ≤ currentIndex status)

/-- `index === currentIndex`. -/
def isCurrent (status : String) (index : Nat) : Bool :=
  decide ((index : Int) = currentIndex status)

/-- One rendered step of the timeline. -/
structure StepView where
  key : String
  completed : Bool
  current : Bool
  deriving Repr, DecidableEq

/-- The rendered timeline: all steps, each with its derived flags. -/
def renderTimeline (status : String) : List StepView :=
  TIMELINE_KEYS.enum.map
    (fun p => { key := p.snd,
                completed := isCompleted status p.fst,
                current := isCurrent status p.fst })

/-- Claim C10: when the status equals the key at index i, exactly the
steps at indices up to i are completed and only step i is current; for
every other status string the found index is -1, no step is completed or
current, and all six steps still render. -/
theorem timeline_total_over_status_strings (status : String) :
    (∀ i : Fin TIMELINE_KEYS.length, TIMELINE_KEYS.get i = status →
      ∀ j : Fin TIMELINE_KEYS.length,
        (isCompleted status j.val = true ↔ j.val ≤ i.val) ∧
        (isCurrent status j.val = true ↔ j.val = i.val)) ∧
    (status ∉ TIMELINE_KEYS →
      currentIndex status = -1 ∧
      ∀ j : Nat, isCompleted status j = false ∧ isCurrent status j = false) ∧
    (renderTimeline status).length = 6 := by
  refine ⟨?_, ?_, rfl⟩
  · intro i hi
    fin_cases i <;> (subst hi; decide)
  · intro h
    simp only [TIMELINE_KEYS, List.mem_cons, List.not_mem_nil, or_false,
      not_or] at h
    obtain ⟨h1, h2, h3, h4, h5, h6⟩ := h
    have e1 : ("submitted" == status) = false :=
      beq_eq_false_iff_ne.mpr (Ne.symm h1)
    have e2 : ("under_review" == status) = false :=
      beq_eq_false_iff_ne.mpr (Ne.symm h2)
    have e3 : ("processing" == status) = false :=
      beq_eq_false_iff_ne.mpr (Ne.symm h3)
    have e4 : ("quality_check" == status) = false :=
      beq_eq_false_iff_ne.mpr (Ne.symm h4)
    have e5 : ("ready_for_pickup" == status) = false :=
      beq_eq_false_iff_ne.mpr (Ne.symm h5)
    have e6 : ("collected" == status) = false :=
      beq_eq_false_iff_ne.mpr (Ne.symm h6)
    have hc : currentIndex status = -1 := by
      simp [currentIndex, TIMELINE_KEYS, jsFindIndex, e1, e2, e3, e4, e5, e6]
    refine ⟨hc, ?_⟩
    intro j
    constructor
    · simp only [isCompleted, hc, decide_eq_false_iff_not, not_le]
      omega
    · simp only [isCurrent, hc, decide_eq_false_iff_not]
      omega

/-- Witness for C10: with status under_review (index 1), step 3 is
neither completed nor current, matching the index comparison. -/
theorem timeline_total_over_status_strings_witness :
    (isCompleted "under_review" 3 = true ↔ 3 ≤ 1) ∧
    (isCurrent "under_review" 3 = true ↔ 3 = 1) :=
  (timeline_total_over_status_strings "under_review").1
    ⟨1, by decide⟩ (by decide) ⟨3, by decide⟩

end Passport
